import Mathlib

/-!
# Resource limits of the Roblox VM wrapper (`VM/src/lvmroblox.cpp`)

A shallow embedding of the limit-enforcement layer of `lvmroblox.cpp`.

* The two file-level globals `g_vmMetrics` and `g_executionStartTime` become the
  record `Globals`, passed into and returned by every function that touches them.
* Every value a function reads from outside the file is an explicit argument:
  a reading of `std::chrono::high_resolution_clock::now()` is an `Int` number of
  clock ticks, and the value returned by `lua_gc(L, LUA_GCCOUNT, 0)` is an `Int`
  (`gcCount`).
* `int` arithmetic is arithmetic on `Int` reduced to 32 bits (two's complement, also
  where C++ leaves signed overflow undefined), `size_t` is a `Nat` below `2 ^ 64`.
* The interpreter is not part of the file. The calls that run or load code
  (`lua_pcall`, `luau_load`, `luaL_loadbuffer`) are arbitrary functions collected in
  `VM`; the stack primitives (`lua_pushstring`, `lua_newtable`, ...) act on the small
  state `LuaState`. Of all VM calls only `lua_pcall`, which runs the script and with it
  the count hook, reads or writes the globals.
-/

namespace RobloxVM

/-! ## Machine integers -/

/-- Smallest value of the 32-bit type int. -/
def INT_MIN : Int := -2147483648

/-- Largest value of the 32-bit type int. -/
def INT_MAX : Int := 2147483647

/-- Reduction of an integer to the 32-bit two's-complement range of int. -/
def wrap_int (x : Int) : Int := (x + 2147483648) % 4294967296 - 2147483648

/-- Product of two int values. Where the exact product leaves the range of int the C++
standard leaves the result undefined; the embedding takes the two's-complement result
of the 32-bit multiply instruction. -/
def int_mul (a b : Int) : Int := wrap_int (a * b)

/-- Sum of two int values, with the same convention as int_mul. -/
def int_add (a b : Int) : Int := wrap_int (a + b)

/-- Conversion of a signed integer to the 64-bit unsigned type size_t (value modulo 2^64). -/
def to_size_t (x : Int) : Nat := (x % 18446744073709551616).toNat

/-! ## Limits (lines 25-32) -/

/-- Maximum execution time in milliseconds before triggering a timeout. -/
def ROBLOX_VM_TIMEOUT_MS : Int := 5000

/-- Maximum memory in bytes: the macro body 100 * 1024 * 1024, an int expression whose
value 104857600 is converted to size_t where it is compared with memoryUsed. -/
def ROBLOX_VM_MAX_MEMORY : Nat := 100 * 1024 * 1024

/-- Maximum call stack depth. -/
def ROBLOX_VM_MAX_CALL_DEPTH : Int := 200

/-! ## Metrics record and globals (lines 34-54) -/

/-- Execution metrics, field for field as struct RobloxVMMetrics. -/
structure RobloxVMMetrics where
  executionTimeMs : Int
  memoryUsed : Nat
  callDepth : Int
  instructionsExecuted : Int
  timedOut : Bool
  memoryLimitExceeded : Bool
  stackOverflow : Bool
  deriving DecidableEq, Repr

/-- The default constructor RobloxVMMetrics() of lines 44-47. -/
def RobloxVMMetrics.new : RobloxVMMetrics :=
  { executionTimeMs := 0, memoryUsed := 0, callDepth := 0, instructionsExecuted := 0,
    timedOut := false, memoryLimitExceeded := false, stackOverflow := false }

/-- The two static variables of the file. -/
structure Globals where
  g_vmMetrics : RobloxVMMetrics
  g_executionStartTime : Int
  deriving DecidableEq, Repr

/-! ## Declarations used by the file but declared elsewhere -/

/-- Declarations the file takes from lua.h and from the C++ library: the status codes,
LUA_MULTRET, LUA_MASKCOUNT, the bytes of the string literal LUA_SIGNATURE, and the number
of ticks of std::chrono::high_resolution_clock in one millisecond. They are parameters. -/
structure Host where
  LUA_OK : Int
  LUA_ERRRUN : Int
  LUA_ERRSYNTAX : Int
  LUA_MULTRET : Int
  LUA_MASKCOUNT : Int
  LUA_SIGNATURE : List Nat
  ticksPerMs : Int

/-- The expression duration_cast<milliseconds>(d).count() for a clock difference of d ticks:
the quotient rounded toward zero. -/
def duration_ms (h : Host) (d : Int) : Int := d.tdiv h.ticksPerMs

/-- The expression lua_gc(L, LUA_GCCOUNT, 0) * 1024 assigned to the size_t field memoryUsed:
the multiplication is done in int, the int result is then converted to size_t. -/
def gc_bytes (gcCount : Int) : Nat := to_size_t (int_mul gcCount 1024)

/-! ## The three checks and the reset (lines 61-102) -/

/-- Function roblox_vm_check_timeout (lines 62-72); now is the clock reading of line 63. -/
def roblox_vm_check_timeout (h : Host) (g : Globals) (now : Int) : Globals × Bool :=
  let m := { g.g_vmMetrics with executionTimeMs := duration_ms h (now - g.g_executionStartTime) }
  if m.executionTimeMs > ROBLOX_VM_TIMEOUT_MS then
    ({ g with g_vmMetrics := { m with timedOut := true } }, true)
  else
    ({ g with g_vmMetrics := m }, false)

/-- Function roblox_vm_check_memory (lines 75-84); gcCount is what lua_gc returns at line 76. -/
def roblox_vm_check_memory (g : Globals) (gcCount : Int) : Globals × Bool :=
  let m := { g.g_vmMetrics with memoryUsed := gc_bytes gcCount }
  if m.memoryUsed > ROBLOX_VM_MAX_MEMORY then
    ({ g with g_vmMetrics := { m with memoryLimitExceeded := true } }, true)
  else
    ({ g with g_vmMetrics := m }, false)

/-- Function roblox_vm_check_stack_depth (lines 87-96). -/
def roblox_vm_check_stack_depth (g : Globals) (depth : Int) : Globals × Bool :=
  let m := { g.g_vmMetrics with callDepth := depth }
  if depth > ROBLOX_VM_MAX_CALL_DEPTH then
    ({ g with g_vmMetrics := { m with stackOverflow := true } }, true)
  else
    ({ g with g_vmMetrics := m }, false)

/-- Function roblox_vm_init_metrics (lines 99-102); now is the clock reading of line 101.
The previous globals are overwritten, none of their fields is read. -/
def roblox_vm_init_metrics (_g : Globals) (now : Int) : Globals :=
  { g_vmMetrics := RobloxVMMetrics.new, g_executionStartTime := now }

/-- Function roblox_vm_get_metrics (lines 105-107). -/
def roblox_vm_get_metrics (g : Globals) : RobloxVMMetrics := g.g_vmMetrics

/-! ## The allocator (lines 141-161) -/

/-- What roblox_vm_alloc does with the block: the three return statements of the function.
Pointers are addresses. -/
inductive AllocResult where
  /-- Line 150: return NULL, neither free nor realloc is called. -/
  | denied
  /-- Lines 155-156: free(ptr) is called and NULL is returned. -/
  | free (ptr : Nat)
  /-- Line 159: the value of realloc(ptr, nsize) is returned. -/
  | realloc (ptr : Nat) (nsize : Nat)
  deriving DecidableEq, Repr

/-- Function roblox_vm_alloc (lines 141-161); gcCount is what lua_gc returns at line 145.
The parameter osize is not read by the body. -/
def roblox_vm_alloc (g : Globals) (gcCount : Int) (ptr : Nat) (_osize : Nat) (nsize : Nat) :
    Globals × AllocResult :=
  let m := { g.g_vmMetrics with memoryUsed := gc_bytes gcCount }
  if m.memoryUsed > ROBLOX_VM_MAX_MEMORY then
    ({ g with g_vmMetrics := { m with memoryLimitExceeded := true } }, AllocResult.denied)
  else if nsize = 0 then
    ({ g with g_vmMetrics := m }, AllocResult.free ptr)
  else
    ({ g with g_vmMetrics := m }, AllocResult.realloc ptr nsize)

/-! ## The VM seen through its C API

The interpreter itself is outside the file. Its state is reduced to what the functions
below act on: the value stack, the objects the stack refers to, the global bindings and
the installed count hook. -/

/-- A Lua value on the VM stack: nil, a string, or a reference to an object by address. -/
inductive LuaValue where
  | nil
  | str (s : String)
  | ref (addr : Nat)
  deriving DecidableEq, Repr

/-- An object of the VM: a table (a map from field names to values, nil for an absent
field), a function with the address of its environment table, or anything else. -/
inductive LuaObject where
  | table (fields : String → LuaValue)
  | closure (env : Nat)
  | other

/-- The part of lua_State the file acts on. The top of the stack is the head of the list;
the address of an object is its position in objects. -/
structure LuaState where
  stack : List LuaValue
  objects : List LuaObject
  globals : String → LuaValue
  hook : Option (Int × Int)

/-- Modelled from the spec: the stack slot named by an index of the C API (lua.h is not among
the sources): a negative index counts from the top (-1 is the top), a positive one from
the bottom. -/
def index2value (L : LuaState) (idx : Int) : Option LuaValue :=
  if idx < 0 then L.stack[(-idx - 1).toNat]?
  else if 0 < idx ∧ idx ≤ L.stack.length then L.stack[L.stack.length - idx.toNat]?
  else none

/-- Modelled from the spec: lua_pushstring of the C API (not among the sources) pushes the
string on the stack. -/
def lua_pushstring (L : LuaState) (s : String) : LuaState :=
  { L with stack := LuaValue.str s :: L.stack }

/-- Modelled from the spec: lua_newtable of the C API (not among the sources) creates an
empty table at a fresh address and pushes a reference to it. -/
def lua_newtable (L : LuaState) : LuaState :=
  { L with objects := L.objects ++ [LuaObject.table (fun _ => LuaValue.nil)],
           stack := LuaValue.ref L.objects.length :: L.stack }

/-- Modelled from the spec: lua_getglobal of the C API (not among the sources) pushes the
value the global namespace binds to the name, nil when there is none. -/
def lua_getglobal (L : LuaState) (name : String) : LuaState :=
  { L with stack := L.globals name :: L.stack }

/-- Modelled from the spec: lua_setfield of the C API (not among the sources) pops the value
on top of the stack and stores it in field k of the table at index idx (the index is
resolved before the pop). -/
def lua_setfield (L : LuaState) (idx : Int) (k : String) : LuaState :=
  match L.stack with
  | [] => L
  | v :: rest =>
    match index2value L idx with
    | some (LuaValue.ref a) =>
      match L.objects[a]? with
      | some (LuaObject.table t) =>
        { L with objects := L.objects.set a (LuaObject.table (Function.update t k v)),
                 stack := rest }
      | _ => { L with stack := rest }
    | _ => { L with stack := rest }

/-- Modelled from the spec: lua_setfenv of the C API (not among the sources) pops the table on
top of the stack and makes it the environment of the function at index idx (resolved
before the pop); it returns 0 and only pops when the value at idx is not a function. -/
def lua_setfenv (L : LuaState) (idx : Int) : LuaState × Int :=
  match L.stack with
  | [] => (L, 0)
  | e :: rest =>
    match index2value L idx, e with
    | some (LuaValue.ref o), LuaValue.ref t =>
      match L.objects[o]? with
      | some (LuaObject.closure _) =>
        ({ L with objects := L.objects.set o (LuaObject.closure t), stack := rest }, 1)
      | _ => ({ L with stack := rest }, 0)
    | _, _ => ({ L with stack := rest }, 0)

/-- Modelled from the spec: lua_sethook of the C API (not among the sources) records the
event mask and the instruction count of the installed hook. -/
def lua_sethook (L : LuaState) (mask count : Int) : LuaState :=
  { L with hook := some (mask, count) }

/-- The field k of the table at address a, nil when a is not a table. -/
def rawget (L : LuaState) (a : Nat) (k : String) : LuaValue :=
  match L.objects[a]? with
  | some (LuaObject.table t) => t k
  | _ => LuaValue.nil

/-- The address of the environment table of the function at address f. -/
def closure_env (L : LuaState) (f : Nat) : Option Nat :=
  match L.objects[f]? with
  | some (LuaObject.closure e) => some e
  | _ => none

/-- A C++ exception leaving a call: one derived from std::exception with its what() text,
or any other. -/
inductive Thrown where
  | std (what : String)
  | other

/-- How a protected call of the VM ends: the status it returns or the exception it lets
out, the VM state it leaves, and the metrics record as the hooks run during the call
left it. -/
structure PCallOutcome where
  result : Except Thrown Int
  L : LuaState
  metrics : RobloxVMMetrics

/-- The VM entry points the file calls and does not define. Each is an arbitrary function
of the state it is called in; lua_pcall also sees the globals, which the count hook it
runs reads and writes. -/
structure VM where
  lua_pcall : LuaState → Globals → Int → Int → Int → PCallOutcome
  luau_load : LuaState → String → List Nat → Nat → Int → Int × LuaState
  luaL_loadbuffer : LuaState → List Nat → Nat → String → Int × LuaState

/-- The C function memcmp on the first n bytes of two buffers: 0 when they agree, else the
difference of the first pair of bytes that differ. A buffer that ends before n bytes is
treated as different. -/
def memcmp : List Nat → List Nat → Nat → Int
  | _, _, 0 => 0
  | a :: p, b :: q, n + 1 => if a = b then memcmp p q n else (a : Int) - (b : Int)
  | _, _, _ + 1 => 1

/-! ## Entry points (lines 110-138, 178-221) -/

/-- Function roblox_vm_execute (lines 110-138). now0 is the clock reading inside
roblox_vm_init_metrics, now1 the one of line 122, gcCount the result of lua_gc at
line 124. The local base of line 115 is not used. -/
def roblox_vm_execute (h : Host) (vm : VM) (g : Globals) (L : LuaState) (nresults : Int)
    (now0 now1 : Int) (gcCount : Int) : Globals × LuaState × Int :=
  let g0 := roblox_vm_init_metrics g now0
  let out := vm.lua_pcall L g0 nresults h.LUA_MULTRET 0
  match out.result with
  | Except.ok status =>
    ({ g0 with g_vmMetrics :=
        { out.metrics with
          executionTimeMs := duration_ms h (now1 - g0.g_executionStartTime),
          memoryUsed := gc_bytes gcCount } }, out.L, status)
  | Except.error (Thrown.std what) =>
    ({ g0 with g_vmMetrics := out.metrics }, lua_pushstring out.L what, h.LUA_ERRRUN)
  | Except.error Thrown.other =>
    ({ g0 with g_vmMetrics := out.metrics },
      lua_pushstring out.L "Unknown error in VM execution", h.LUA_ERRRUN)

/-- Function roblox_vm_load (lines 178-195). The buffer and its size are the list bytecode
and its length; now is the clock reading inside roblox_vm_init_metrics, gcCount the
result of lua_gc at line 192. -/
def roblox_vm_load (h : Host) (vm : VM) (g : Globals) (L : LuaState) (chunkname : String)
    (bytecode : List Nat) (now : Int) (gcCount : Int) : Globals × LuaState × Int :=
  let g0 := roblox_vm_init_metrics g now
  if bytecode.length < 4 ∨ memcmp bytecode h.LUA_SIGNATURE 4 ≠ 0 then
    (g0, lua_pushstring L "Invalid bytecode signature", h.LUA_ERRSYNTAX)
  else
    let r := vm.luau_load L chunkname bytecode bytecode.length 0
    ({ g0 with g_vmMetrics := { g0.g_vmMetrics with memoryUsed := gc_bytes gcCount } },
      r.2, r.1)

/-- Function roblox_vm_pcall (lines 198-221). now0 is the clock reading inside
roblox_vm_init_metrics, now1 the one of line 209, gcCount the result of lua_gc at
line 211. The function has no handler: an exception that leaves lua_pcall leaves it too. -/
def roblox_vm_pcall (h : Host) (vm : VM) (g : Globals) (L : LuaState) (nargs nresults : Int)
    (now0 now1 : Int) (gcCount : Int) : Globals × LuaState × Except Thrown Int :=
  let g0 := roblox_vm_init_metrics g now0
  let out := vm.lua_pcall L g0 nargs nresults 0
  match out.result with
  | Except.error ex => ({ g0 with g_vmMetrics := out.metrics }, out.L, Except.error ex)
  | Except.ok status =>
    let m := { out.metrics with
                executionTimeMs := duration_ms h (now1 - g0.g_executionStartTime),
                memoryUsed := gc_bytes gcCount }
    if m.executionTimeMs > ROBLOX_VM_TIMEOUT_MS then
      ({ g0 with g_vmMetrics := { m with timedOut := true } },
        lua_pushstring out.L "Script execution timed out", Except.ok h.LUA_ERRRUN)
    else
      ({ g0 with g_vmMetrics := m }, out.L, Except.ok status)

/-! ## Sandbox, hook and script execution (lines 283-344) -/

/-- Function roblox_vm_create_sandbox (lines 283-305). -/
def roblox_vm_create_sandbox (L : LuaState) : LuaState :=
  let L1 := lua_newtable L
  let L2 := lua_setfield (lua_getglobal L1 "math") (-2) "math"
  let L3 := lua_setfield (lua_getglobal L2 "string") (-2) "string"
  let L4 := lua_setfield (lua_getglobal L3 "table") (-2) "table"
  (lua_setfenv L4 (-2)).1

/-- The hook function passed to lua_sethook (the lambda of lines 310-323). now is the clock
reading inside roblox_vm_check_timeout, gcCount the result of lua_gc inside
roblox_vm_check_memory. luaL_error does not return: it raises a Lua error carrying the
message, which ends the hook. -/
def loop_detection_hook (h : Host) (g : Globals) (now : Int) (gcCount : Int) :
    Globals × Except String Unit :=
  let g1 := { g with g_vmMetrics :=
    { g.g_vmMetrics with
      instructionsExecuted := int_add g.g_vmMetrics.instructionsExecuted 1 } }
  let t := roblox_vm_check_timeout h g1 now
  if t.2 then
    (t.1, Except.error "Script execution timed out (possible infinite loop)")
  else
    let c := roblox_vm_check_memory t.1 gcCount
    if c.2 then (c.1, Except.error "Memory limit exceeded")
    else (c.1, Except.ok ())

/-- Function roblox_vm_setup_loop_detection (lines 308-324): installs loop_detection_hook as
count hook, to run every 1000 instructions. -/
def roblox_vm_setup_loop_detection (h : Host) (L : LuaState) : LuaState :=
  lua_sethook L h.LUA_MASKCOUNT 1000

/-- Function roblox_vm_execute_script (lines 327-344). The script buffer and its length are
the list script and its length; now0 is the clock reading of the reset at line 329,
now1, now2 and gcCount are the readings made inside roblox_vm_pcall. -/
def roblox_vm_execute_script (h : Host) (vm : VM) (g : Globals) (L : LuaState)
    (script : List Nat) (chunkname : String) (now0 now1 now2 : Int) (gcCount : Int) :
    Globals × LuaState × Except Thrown Int :=
  let g0 := roblox_vm_init_metrics g now0
  let r := vm.luaL_loadbuffer L script script.length chunkname
  if r.1 ≠ h.LUA_OK then
    (g0, r.2, Except.ok h.LUA_ERRSYNTAX)
  else
    let L1 := roblox_vm_create_sandbox r.2
    let L2 := roblox_vm_setup_loop_detection h L1
    roblox_vm_pcall h vm g0 L2 0 h.LUA_MULTRET now1 now2 gcCount

/-- The checks a recursion makes when roblox_vm_check_stack_depth is called at each call
entry: depths 1, 2, ..., n in this order, from the globals g. The result is the state
after the last check and the value it returned (false when n is 0). -/
def check_depths_upto (g : Globals) : Nat → Globals × Bool
  | 0 => (g, false)
  | n + 1 => roblox_vm_check_stack_depth (check_depths_upto g n).1 ((n : Int) + 1)

/-! ## Concrete instances used to exercise the theorems -/

/-- The declarations as Lua 5.1 gives them (LUA_SIGNATURE is the literal "\033Lua"), with a
clock that ticks in nanoseconds. -/
def sample_host : Host :=
  { LUA_OK := 0, LUA_ERRRUN := 2, LUA_ERRSYNTAX := 3, LUA_MULTRET := -1, LUA_MASKCOUNT := 8,
    LUA_SIGNATURE := [27, 76, 117, 97], ticksPerMs := 1000000 }

/-- Globals of a host program: the three libraries the sandbox copies and the os library. -/
def sample_globals : String → LuaValue := fun name =>
  if name = "math" then LuaValue.ref 1
  else if name = "string" then LuaValue.ref 2
  else if name = "table" then LuaValue.ref 3
  else if name = "os" then LuaValue.ref 4
  else LuaValue.nil

/-- A VM state as a loader leaves it: object 0 is the table of globals, objects 1 to 4 are the
libraries, object 5 is the loaded function (environment: object 0), alone on the stack. -/
def sample_loaded : LuaState :=
  { stack := [LuaValue.ref 5],
    objects := [LuaObject.other, LuaObject.other, LuaObject.other, LuaObject.other,
      LuaObject.other, LuaObject.closure 0],
    globals := sample_globals,
    hook := none }

/-- A VM whose protected call returns status 0 at once and whose loaders accept everything,
none of them changing the state. -/
def sample_vm : VM :=
  { lua_pcall := fun L g _ _ _ => { result := Except.ok 0, L := L, metrics := g.g_vmMetrics },
    luau_load := fun L _ _ _ _ => (0, L),
    luaL_loadbuffer := fun L _ _ _ => (0, L) }

/-- Globals at program start: default-constructed metrics, start time 0. -/
def sample_start : Globals := { g_vmMetrics := RobloxVMMetrics.new, g_executionStartTime := 0 }

/-! ## Supporting lemmas -/

/-- Below 2 GiB (a count under 2097152 KB) the stored byte figure is the exact product. -/
theorem gc_bytes_exact (c : Int) (h0 : 0 ≤ c) (h1 : c < 2097152) :
    (gc_bytes c : Int) = 1024 * c := by
  unfold gc_bytes to_size_t int_mul wrap_int
  omega

/-- The stored byte figure is a size_t value. -/
theorem gc_bytes_lt (c : Int) : gc_bytes c < 18446744073709551616 := by
  unfold gc_bytes to_size_t int_mul wrap_int
  omega

/-- Below 2 GiB the memory check compares the exact byte usage with the limit. -/
theorem check_memory_exact_below_2GiB (g : Globals) (c : Int) (h0 : 0 ≤ c) (h1 : c < 2097152) :
    ((roblox_vm_check_memory g c).1.g_vmMetrics.memoryUsed : Int) = 1024 * c ∧
    (roblox_vm_check_memory g c).2 = decide (c > 102400) := by
  have hx := gc_bytes_exact c h0 h1
  unfold roblox_vm_check_memory
  simp only [ROBLOX_VM_MAX_MEMORY]
  split_ifs with hgt
  · refine ⟨hx, ?_⟩
    have : c > 102400 := by omega
    simp [this]
  · refine ⟨hx, ?_⟩
    have : ¬ c > 102400 := by omega
    simp [this]

/-- An int counter below INT_MAX is incremented exactly. -/
theorem int_add_one_exact (x : Int) (h0 : INT_MIN ≤ x) (h1 : x < INT_MAX) :
    int_add x 1 = x + 1 := by
  unfold int_add wrap_int
  unfold INT_MIN at h0
  unfold INT_MAX at h1
  omega

/-! ## The allocator -/

/-- Below 2 GiB the allocator stores the exact byte usage 1024 * c and decides on it alone:
above the limit every request is denied and flagged, otherwise free(ptr) is called for
nsize = 0 and realloc(ptr, nsize) for any other size, with the flag unchanged. -/
theorem alloc_exact_below_2GiB (g : Globals) (c : Int) (ptr osize nsize : Nat)
    (h0 : 0 ≤ c) (h1 : c < 2097152) :
    roblox_vm_alloc g c ptr osize nsize =
      (if 1024 * c > 104857600 then
        ({ g with g_vmMetrics :=
            { g.g_vmMetrics with
              memoryUsed := (1024 * c).toNat, memoryLimitExceeded := true } },
          AllocResult.denied)
       else
        ({ g with g_vmMetrics := { g.g_vmMetrics with memoryUsed := (1024 * c).toNat } },
          if nsize = 0 then AllocResult.free ptr else AllocResult.realloc ptr nsize)) := by
  have hx := gc_bytes_exact c h0 h1
  have hnat : gc_bytes c = (1024 * c).toNat := by omega
  unfold roblox_vm_alloc
  simp only [ROBLOX_VM_MAX_MEMORY, hnat]
  by_cases hover : 1024 * c > 104857600
  · have hover2 : (1024 * c).toNat > 100 * 1024 * 1024 := by omega
    simp [hover, hover2]
  · have hover2 : ¬ (1024 * c).toNat > 100 * 1024 * 1024 := by omega
    by_cases hz : nsize = 0
    · simp [hover, hover2, hz]
    · simp [hover, hover2, hz]

/-- C1 (as stated, refuted): with 50 MB in use (lua_gc reports 51200 KB, stored as 52428800
bytes) a request to grow a block from 0 to 100 MB would take usage to 150 MB, above the
limit; roblox_vm_alloc passes it to realloc and does not set the flag. -/
theorem alloc_grants_growth_beyond_limit :
    (0 : Nat) < 104857600 ∧
    (roblox_vm_alloc ⟨RobloxVMMetrics.new, 0⟩ 51200 4096 0 104857600).1.g_vmMetrics.memoryUsed =
      1024 * 51200 ∧
    1024 * 51200 - 0 + 104857600 > ROBLOX_VM_MAX_MEMORY ∧
    (roblox_vm_alloc ⟨RobloxVMMetrics.new, 0⟩ 51200 4096 0 104857600).2 =
      AllocResult.realloc 4096 104857600 ∧
    (roblox_vm_alloc ⟨RobloxVMMetrics.new, 0⟩ 51200 4096 0 104857600).1.g_vmMetrics.memoryLimitExceeded =
      false := by
  decide

/-- C1 (amended): roblox_vm_alloc decides on the usage already reached, not on the usage the
request would lead to. For every VM-reported usage u = 1024 * c bytes below 2 GiB (a count
c of lua_gc with 0 <= c < 2097152, where the product is an int) and every growth request
(osize < nsize): if u itself is above ROBLOX_VM_MAX_MEMORY the function returns NULL
without calling realloc and sets memoryLimitExceeded in that same call; if u is not above
the limit the request goes to realloc whatever the sizes are and the flag keeps its
value. memoryUsed is u afterwards. -/
theorem alloc_denies_on_current_usage (g : Globals) (c : Int) (ptr osize nsize : Nat)
    (hgrow : osize < nsize) (h0 : 0 ≤ c) (h1 : c < 2097152) :
    (1024 * c > (ROBLOX_VM_MAX_MEMORY : Int) →
      (roblox_vm_alloc g c ptr osize nsize).2 = AllocResult.denied ∧
      (roblox_vm_alloc g c ptr osize nsize).1.g_vmMetrics.memoryLimitExceeded = true) ∧
    (1024 * c ≤ (ROBLOX_VM_MAX_MEMORY : Int) →
      (roblox_vm_alloc g c ptr osize nsize).2 = AllocResult.realloc ptr nsize ∧
      (roblox_vm_alloc g c ptr osize nsize).1.g_vmMetrics.memoryLimitExceeded =
        g.g_vmMetrics.memoryLimitExceeded) ∧
    ((roblox_vm_alloc g c ptr osize nsize).1.g_vmMetrics.memoryUsed : Int) = 1024 * c := by
  have hn : nsize ≠ 0 := by omega
  have hM : (ROBLOX_VM_MAX_MEMORY : Int) = 104857600 := by decide
  rw [alloc_exact_below_2GiB g c ptr osize nsize h0 h1, hM]
  refine ⟨?_, ?_, ?_⟩
  · intro hover
    simp [hover]
  · intro hle
    have hno : ¬ 1024 * c > 104857600 := by omega
    simp [hno, hn]
  · by_cases hover : 1024 * c > 104857600
    · simp only [if_pos hover]
      omega
    · simp only [if_neg hover]
      omega

/-- Witness of alloc_denies_on_current_usage: with 200 MB in use a block growing from 16 to 32
bytes is denied and flagged. -/
theorem alloc_denies_on_current_usage_witness :
    (16 : Nat) < 32 ∧ (0 : Int) ≤ 204800 ∧ (204800 : Int) < 2097152 ∧
    1024 * (204800 : Int) > (ROBLOX_VM_MAX_MEMORY : Int) ∧
    (roblox_vm_alloc ⟨RobloxVMMetrics.new, 0⟩ 204800 4096 16 32).2 = AllocResult.denied ∧
    (roblox_vm_alloc ⟨RobloxVMMetrics.new, 0⟩ 204800 4096 16 32).1.g_vmMetrics.memoryLimitExceeded =
      true :=
  ⟨by decide, by decide, by decide, by decide,
    (alloc_denies_on_current_usage ⟨RobloxVMMetrics.new, 0⟩ 204800 4096 16 32
      (by decide) (by decide) (by decide)).1 (by decide)⟩

/-- C2 (the code at the failing input): with usage above the limit (lua_gc reports 102401 KB,
104858624 bytes) a request to free a block (nsize = 0) and a request to shrink one (64 to
32 bytes) both take the denial branch of roblox_vm_alloc: NULL is returned, neither free
nor realloc is called, and memoryLimitExceeded is set, where the claim has free(ptr) and
realloc(ptr, 32) called. One KB lower, at the limit, the same two requests are delegated. -/
theorem alloc_denies_free_and_shrink_over_limit (g : Globals) (ptr : Nat) :
    1024 * 102401 > ROBLOX_VM_MAX_MEMORY ∧
    (roblox_vm_alloc g 102401 ptr 64 0).1.g_vmMetrics.memoryUsed = 1024 * 102401 ∧
    (roblox_vm_alloc g 102401 ptr 64 0).2 = AllocResult.denied ∧
    (roblox_vm_alloc g 102401 ptr 64 32).2 = AllocResult.denied ∧
    (roblox_vm_alloc g 102401 ptr 64 0).1.g_vmMetrics.memoryLimitExceeded = true ∧
    (roblox_vm_alloc g 102400 ptr 64 0).2 = AllocResult.free ptr ∧
    (roblox_vm_alloc g 102400 ptr 64 32).2 = AllocResult.realloc ptr 32 := by
  have hb : gc_bytes 102401 = 104858624 := by decide
  have hb0 : gc_bytes 102400 = 104857600 := by decide
  refine ⟨by decide, ?_, ?_, ?_, ?_, ?_, ?_⟩
  all_goals simp [roblox_vm_alloc, hb, hb0, ROBLOX_VM_MAX_MEMORY]

/-- C3 (the code at the failing input): when lua_gc reports 4194304 KB (4 GiB in use, far
above the limit) the int product of line 145 is 2^32 and does not fit an int; the stored
figure is 0, a request to grow a block from 16 to 32 bytes is passed to realloc, and
memoryLimitExceeded keeps its value, where the claim has the request denied, the flag
set and memoryUsed = 4294967296. -/
theorem alloc_growth_int_overflow (g : Globals) (ptr : Nat) :
    (16 : Nat) < 32 ∧
    (4194304 : Int) ≤ INT_MAX ∧
    1024 * 4194304 > ROBLOX_VM_MAX_MEMORY ∧
    (roblox_vm_alloc g 4194304 ptr 16 32).2 = AllocResult.realloc ptr 32 ∧
    (roblox_vm_alloc g 4194304 ptr 16 32).1.g_vmMetrics.memoryUsed = 0 ∧
    (roblox_vm_alloc g 4194304 ptr 16 32).1.g_vmMetrics.memoryLimitExceeded =
      g.g_vmMetrics.memoryLimitExceeded := by
  have h4 : gc_bytes 4194304 = 0 := by decide
  refine ⟨by decide, by decide, by decide, ?_, ?_, ?_⟩
  all_goals simp [roblox_vm_alloc, h4]

/-! ## The call-depth guard -/

/-- After the checks at depths 1 to n from reset metrics: the last check returned true exactly
when n is above 200, callDepth is n, and stackOverflow is set exactly when n is above 200. -/
theorem check_depths_upto_spec (g : Globals) (now : Int) (n : Nat) :
    (check_depths_upto (roblox_vm_init_metrics g now) n).2 = decide (200 < n) ∧
    (check_depths_upto (roblox_vm_init_metrics g now) n).1.g_vmMetrics.callDepth = (n : Int) ∧
    (check_depths_upto (roblox_vm_init_metrics g now) n).1.g_vmMetrics.stackOverflow =
      decide (200 < n) := by
  induction n with
  | zero => simp [check_depths_upto, roblox_vm_init_metrics, RobloxVMMetrics.new]
  | succ k ih =>
    obtain ⟨_, _, ih3⟩ := ih
    simp only [check_depths_upto, roblox_vm_check_stack_depth, ROBLOX_VM_MAX_CALL_DEPTH]
    by_cases hk : (k : Int) + 1 > 200
    · have hk2 : 200 < k + 1 := by omega
      simp [hk, hk2]
    · have hk2 : ¬ 200 < k + 1 := by omega
      have hk3 : ¬ 200 < k := by omega
      simp only [hk3, decide_False] at ih3
      simp [hk, hk2, ih3]

/-- C4: roblox_vm_check_stack_depth(depth) returns true exactly when depth > 200, records
callDepth = depth, sets stackOverflow in that case and otherwise leaves it, and touches
nothing else. From reset metrics, with the check made at depths 1, 2, 3, ..., every check
up to depth 200 returns false with stackOverflow false, and the check at depth 201 is the
first to return true, with callDepth = 201 and stackOverflow = true. -/
theorem check_stack_depth_spec (g : Globals) (depth : Int) (now : Int) (n : Nat) :
    ROBLOX_VM_MAX_CALL_DEPTH = 200 ∧
    (roblox_vm_check_stack_depth g depth).2 = decide (depth > 200) ∧
    (roblox_vm_check_stack_depth g depth).1 =
      { g with g_vmMetrics :=
        { g.g_vmMetrics with
          callDepth := depth,
          stackOverflow := if depth > 200 then true else g.g_vmMetrics.stackOverflow } } ∧
    (check_depths_upto (roblox_vm_init_metrics g now) n).2 = decide (200 < n) ∧
    (check_depths_upto (roblox_vm_init_metrics g now) n).1.g_vmMetrics.callDepth = (n : Int) ∧
    (check_depths_upto (roblox_vm_init_metrics g now) n).1.g_vmMetrics.stackOverflow =
      decide (200 < n) ∧
    (check_depths_upto (roblox_vm_init_metrics g now) 200).2 = false ∧
    (check_depths_upto (roblox_vm_init_metrics g now) 201).2 = true ∧
    (check_depths_upto (roblox_vm_init_metrics g now) 201).1.g_vmMetrics.callDepth = 201 ∧
    (check_depths_upto (roblox_vm_init_metrics g now) 201).1.g_vmMetrics.stackOverflow = true := by
  have h200 := check_depths_upto_spec g now 200
  have h201 := check_depths_upto_spec g now 201
  have hn := check_depths_upto_spec g now n
  refine ⟨rfl, ?_, ?_, hn.1, hn.2.1, hn.2.2, ?_, ?_, ?_, ?_⟩
  · unfold roblox_vm_check_stack_depth
    by_cases hd : depth > 200
    · simp [ROBLOX_VM_MAX_CALL_DEPTH, hd]
    · simp [ROBLOX_VM_MAX_CALL_DEPTH, hd]
  · unfold roblox_vm_check_stack_depth
    by_cases hd : depth > 200
    · simp [ROBLOX_VM_MAX_CALL_DEPTH, hd]
    · simp [ROBLOX_VM_MAX_CALL_DEPTH, hd]
  · simpa using h200.1
  · simpa using h201.1
  · simpa using h201.2.1
  · simpa using h201.2.2

/-! ## The memory check -/

/-- C9 (the code at the failing input): when lua_gc reports 4194304 KB (4 GiB in use) the int
product 4194304 * 1024 is 2^32, outside the range of int; the stored figure is 0 instead
of 4294967296, roblox_vm_check_memory returns false and memoryLimitExceeded keeps its
value, although the true usage is above the limit. At 2097152 KB (2 GiB) the stored
figure is not the byte usage either. -/
theorem check_memory_int_overflow (g : Globals) :
    (4194304 : Int) ≤ INT_MAX ∧
    1024 * 4194304 > ROBLOX_VM_MAX_MEMORY ∧
    (roblox_vm_check_memory g 4194304).2 = false ∧
    (roblox_vm_check_memory g 4194304).1.g_vmMetrics.memoryUsed = 0 ∧
    (roblox_vm_check_memory g 4194304).1.g_vmMetrics.memoryLimitExceeded =
      g.g_vmMetrics.memoryLimitExceeded ∧
    (roblox_vm_check_memory g 2097152).1.g_vmMetrics.memoryUsed = 18446744071562067968 := by
  have h4 : gc_bytes 4194304 = 0 := by decide
  have h2 : gc_bytes 2097152 = 18446744071562067968 := by decide
  refine ⟨by decide, by decide, ?_, ?_, ?_, ?_⟩
  · simp [roblox_vm_check_memory, h4]
  · simp [roblox_vm_check_memory, h4]
  · simp [roblox_vm_check_memory, h4]
  · simp [roblox_vm_check_memory, h2, ROBLOX_VM_MAX_MEMORY]

/-! ## The protected call -/

/-- C5: when the VM call made by roblox_vm_pcall returns status s and the elapsed time
measured afterwards is e (milliseconds between the reset and line 209), then for
e > 5000 the function returns LUA_ERRRUN with the message "Script execution timed out"
pushed on the stack and timedOut set, whatever s is; for e <= 5000 it returns s, leaves
the stack as the call left it and leaves timedOut as the call left it. In both cases
executionTimeMs is e. -/
theorem pcall_timeout_spec (h : Host) (vm : VM) (g : Globals) (L : LuaState)
    (nargs nresults now0 now1 gcCount s : Int)
    (hret : (vm.lua_pcall L (roblox_vm_init_metrics g now0) nargs nresults 0).result =
      Except.ok s) :
    ROBLOX_VM_TIMEOUT_MS = 5000 ∧
    (roblox_vm_pcall h vm g L nargs nresults now0 now1 gcCount).2.2 =
      Except.ok (if duration_ms h (now1 - now0) > 5000 then h.LUA_ERRRUN else s) ∧
    (roblox_vm_pcall h vm g L nargs nresults now0 now1 gcCount).2.1.stack =
      (if duration_ms h (now1 - now0) > 5000 then
        LuaValue.str "Script execution timed out" ::
          (vm.lua_pcall L (roblox_vm_init_metrics g now0) nargs nresults 0).L.stack
       else (vm.lua_pcall L (roblox_vm_init_metrics g now0) nargs nresults 0).L.stack) ∧
    (roblox_vm_pcall h vm g L nargs nresults now0 now1 gcCount).1.g_vmMetrics.timedOut =
      (if duration_ms h (now1 - now0) > 5000 then true
       else (vm.lua_pcall L (roblox_vm_init_metrics g now0) nargs nresults 0).metrics.timedOut) ∧
    (roblox_vm_pcall h vm g L nargs nresults now0 now1 gcCount).1.g_vmMetrics.executionTimeMs =
      duration_ms h (now1 - now0) := by
  simp only [roblox_vm_init_metrics] at hret
  refine ⟨rfl, ?_, ?_, ?_, ?_⟩
  all_goals
    simp only [roblox_vm_pcall, roblox_vm_init_metrics, hret, ROBLOX_VM_TIMEOUT_MS]
    by_cases hto : duration_ms h (now1 - now0) > 5000
    · simp [hto, lua_pushstring]
    · simp [hto]

/-! ## The bytecode loader -/

/-- On buffers of at least n bytes, memcmp is 0 exactly when the first n bytes agree. -/
theorem memcmp_eq_zero_iff (n : Nat) :
    ∀ (p q : List Nat), n ≤ p.length → n ≤ q.length →
      (memcmp p q n = 0 ↔ p.take n = q.take n) := by
  induction n with
  | zero => intro p q _ _; simp [memcmp]
  | succ k ih =>
    intro p q hp hq
    cases p with
    | nil => simp at hp
    | cons a p =>
      cases q with
      | nil => simp at hq
      | cons b q =>
        have hp2 : k ≤ p.length := by simpa using hp
        have hq2 : k ≤ q.length := by simpa using hq
        by_cases hab : a = b
        · simp [memcmp, hab, ih p q hp2 hq2]
        · have hne : (a : Int) - (b : Int) ≠ 0 := by omega
          simp [memcmp, hab, hne]

/-- C6: roblox_vm_load on an input that is shorter than 4 bytes or whose first 4 bytes are
not those of LUA_SIGNATURE returns LUA_ERRSYNTAX, leaves the VM state as it was but for the
pushed message (luau_load is not called: the outcome is the same for every VM), and leaves
every metrics field at its reset value, whatever the metrics were before. An input of at least 4 bytes that begins with
the signature is handed to luau_load, whose status and resulting state are returned. -/
theorem load_signature_check (h : Host) (vm : VM) (g : Globals) (L : LuaState)
    (chunkname : String) (bytecode : List Nat) (now gcCount : Int)
    (hsig : 4 ≤ h.LUA_SIGNATURE.length) :
    ((bytecode.length < 4 ∨ bytecode.take 4 ≠ h.LUA_SIGNATURE.take 4) →
      roblox_vm_load h vm g L chunkname bytecode now gcCount =
        ({ g_vmMetrics :=
            { executionTimeMs := 0, memoryUsed := 0, callDepth := 0, instructionsExecuted := 0,
              timedOut := false, memoryLimitExceeded := false, stackOverflow := false },
           g_executionStartTime := now },
         lua_pushstring L "Invalid bytecode signature", h.LUA_ERRSYNTAX) ∧
      ∀ vm2 : VM, roblox_vm_load h vm2 g L chunkname bytecode now gcCount =
        roblox_vm_load h vm g L chunkname bytecode now gcCount) ∧
    ((4 ≤ bytecode.length ∧ bytecode.take 4 = h.LUA_SIGNATURE.take 4) →
      (roblox_vm_load h vm g L chunkname bytecode now gcCount).2.2 =
        (vm.luau_load L chunkname bytecode bytecode.length 0).1 ∧
      (roblox_vm_load h vm g L chunkname bytecode now gcCount).2.1 =
        (vm.luau_load L chunkname bytecode bytecode.length 0).2) := by
  constructor
  · intro hbad
    have hcond : bytecode.length < 4 ∨ memcmp bytecode h.LUA_SIGNATURE 4 ≠ 0 := by
      rcases hbad with hlen | hdiff
      · exact Or.inl hlen
      · by_cases hlen : bytecode.length < 4
        · exact Or.inl hlen
        · right
          intro hz
          exact hdiff ((memcmp_eq_zero_iff 4 bytecode h.LUA_SIGNATURE (by omega) hsig).mp hz)
    simp only [roblox_vm_load, if_pos hcond, roblox_vm_init_metrics, RobloxVMMetrics.new,
      implies_true, and_self]
  · intro hgood
    have hz : memcmp bytecode h.LUA_SIGNATURE 4 = 0 :=
      (memcmp_eq_zero_iff 4 bytecode h.LUA_SIGNATURE hgood.1 hsig).mpr hgood.2
    have hcond : ¬ (bytecode.length < 4 ∨ memcmp bytecode h.LUA_SIGNATURE 4 ≠ 0) := by
      intro hc
      rcases hc with hlen | hne
      · omega
      · exact hne hz
    simp only [roblox_vm_load, if_neg hcond, and_self]

/-! ## Reset at run entry -/

/-- C7: roblox_vm_init_metrics yields the same record from any two prior states, with all
counters 0 and the three flags false, and each of roblox_vm_execute, roblox_vm_load,
roblox_vm_pcall and roblox_vm_execute_script, run from two different prior states with the
same arguments and the same VM behaviour, ends with the same globals, VM state and
result: nothing of the prior metrics reaches the run. -/
theorem metrics_reset_per_run (h : Host) (vm : VM) (g1 g2 : Globals) (L : LuaState)
    (chunkname : String) (bytes : List Nat) (nargs nresults now0 now1 now2 gcCount : Int) :
    roblox_vm_init_metrics g1 now0 = roblox_vm_init_metrics g2 now0 ∧
    (roblox_vm_init_metrics g1 now0).g_vmMetrics =
      { executionTimeMs := 0, memoryUsed := 0, callDepth := 0, instructionsExecuted := 0,
        timedOut := false, memoryLimitExceeded := false, stackOverflow := false } ∧
    roblox_vm_execute h vm g1 L nresults now0 now1 gcCount =
      roblox_vm_execute h vm g2 L nresults now0 now1 gcCount ∧
    roblox_vm_load h vm g1 L chunkname bytes now0 gcCount =
      roblox_vm_load h vm g2 L chunkname bytes now0 gcCount ∧
    roblox_vm_pcall h vm g1 L nargs nresults now0 now1 gcCount =
      roblox_vm_pcall h vm g2 L nargs nresults now0 now1 gcCount ∧
    roblox_vm_execute_script h vm g1 L bytes chunkname now0 now1 now2 gcCount =
      roblox_vm_execute_script h vm g2 L bytes chunkname now0 now1 now2 gcCount :=
  ⟨rfl, rfl, rfl, rfl, rfl, rfl⟩

/-- Witness of pcall_timeout_spec: the VM call returns status 0 (success) and 6000 ms have
elapsed; the result is LUA_ERRRUN (2) and timedOut is set. -/
theorem pcall_timeout_spec_witness :
    (sample_vm.lua_pcall sample_loaded (roblox_vm_init_metrics sample_start 0) 0 (-1) 0).result =
      Except.ok 0 ∧
    (roblox_vm_pcall sample_host sample_vm sample_start sample_loaded 0 (-1) 0 6000000000 0).2.2 =
      Except.ok 2 ∧
    (roblox_vm_pcall sample_host sample_vm sample_start sample_loaded 0 (-1) 0 6000000000
      0).1.g_vmMetrics.timedOut = true :=
  ⟨rfl,
    (pcall_timeout_spec sample_host sample_vm sample_start sample_loaded 0 (-1) 0 6000000000 0 0
      rfl).2.1.trans rfl,
    (pcall_timeout_spec sample_host sample_vm sample_start sample_loaded 0 (-1) 0 6000000000 0 0
      rfl).2.2.2.1.trans rfl⟩

/-- Witness of load_signature_check: the three bytes 1, 2, 3 are rejected with LUA_ERRSYNTAX
(3) and the metrics read 0 for memoryUsed although flags were set before. -/
theorem load_signature_check_witness :
    4 ≤ sample_host.LUA_SIGNATURE.length ∧
    (([1, 2, 3] : List Nat).length < 4 ∨
      ([1, 2, 3] : List Nat).take 4 ≠ sample_host.LUA_SIGNATURE.take 4) ∧
    (roblox_vm_load sample_host sample_vm
      { g_vmMetrics :=
          { executionTimeMs := 9000, memoryUsed := 7, callDepth := 3, instructionsExecuted := 5,
            timedOut := true, memoryLimitExceeded := true, stackOverflow := true },
        g_executionStartTime := 11 }
      sample_loaded "chunk" [1, 2, 3] 42 51200).2.2 = 3 ∧
    (roblox_vm_load sample_host sample_vm
      { g_vmMetrics :=
          { executionTimeMs := 9000, memoryUsed := 7, callDepth := 3, instructionsExecuted := 5,
            timedOut := true, memoryLimitExceeded := true, stackOverflow := true },
        g_executionStartTime := 11 }
      sample_loaded "chunk" [1, 2, 3] 42 51200).1.g_vmMetrics = RobloxVMMetrics.new :=
  ⟨by decide, by decide,
    congrArg (fun r => r.2.2)
      ((load_signature_check sample_host sample_vm
        { g_vmMetrics :=
            { executionTimeMs := 9000, memoryUsed := 7, callDepth := 3, instructionsExecuted := 5,
              timedOut := true, memoryLimitExceeded := true, stackOverflow := true },
          g_executionStartTime := 11 }
        sample_loaded "chunk" [1, 2, 3] 42 51200 (by decide)).1 (by decide)).1,
    congrArg (fun r => r.1.g_vmMetrics)
      ((load_signature_check sample_host sample_vm
        { g_vmMetrics :=
            { executionTimeMs := 9000, memoryUsed := 7, callDepth := 3, instructionsExecuted := 5,
              timedOut := true, memoryLimitExceeded := true, stackOverflow := true },
          g_executionStartTime := 11 }
        sample_loaded "chunk" [1, 2, 3] 42 51200 (by decide)).1 (by decide)).1⟩

/-! ## The count hook -/

/-- C10: each run of the hook installed by roblox_vm_setup_loop_detection first increments
instructionsExecuted (by exactly 1 for a counter below INT_MAX). If the elapsed time e is
above 5000 ms it raises the timed-out error with timedOut set and nothing else changed:
memoryUsed and memoryLimitExceeded keep their values and the outcome does not depend on
what lua_gc would report, so with both limits exceeded the outcome is the timeout. If
e <= 5000 and the byte figure is above ROBLOX_VM_MAX_MEMORY it raises the memory error
with memoryLimitExceeded set and timedOut untouched; the memory error is raised in no
other case. If neither limit is exceeded it returns normally and sets no flag. -/
theorem hook_precedence (h : Host) (g : Globals) (now gcCount gcOther : Int) :
    (loop_detection_hook h g now gcCount).1.g_vmMetrics.instructionsExecuted =
      int_add g.g_vmMetrics.instructionsExecuted 1 ∧
    (INT_MIN ≤ g.g_vmMetrics.instructionsExecuted ∧ g.g_vmMetrics.instructionsExecuted < INT_MAX →
      (loop_detection_hook h g now gcCount).1.g_vmMetrics.instructionsExecuted =
        g.g_vmMetrics.instructionsExecuted + 1) ∧
    (duration_ms h (now - g.g_executionStartTime) > 5000 →
      loop_detection_hook h g now gcCount =
        ({ g with g_vmMetrics :=
            { g.g_vmMetrics with
              instructionsExecuted := int_add g.g_vmMetrics.instructionsExecuted 1,
              executionTimeMs := duration_ms h (now - g.g_executionStartTime),
              timedOut := true } },
          Except.error "Script execution timed out (possible infinite loop)") ∧
      loop_detection_hook h g now gcCount = loop_detection_hook h g now gcOther) ∧
    (duration_ms h (now - g.g_executionStartTime) ≤ 5000 →
      gc_bytes gcCount > ROBLOX_VM_MAX_MEMORY →
      loop_detection_hook h g now gcCount =
        ({ g with g_vmMetrics :=
            { g.g_vmMetrics with
              instructionsExecuted := int_add g.g_vmMetrics.instructionsExecuted 1,
              executionTimeMs := duration_ms h (now - g.g_executionStartTime),
              memoryUsed := gc_bytes gcCount,
              memoryLimitExceeded := true } },
          Except.error "Memory limit exceeded")) ∧
    (duration_ms h (now - g.g_executionStartTime) ≤ 5000 →
      gc_bytes gcCount ≤ ROBLOX_VM_MAX_MEMORY →
      loop_detection_hook h g now gcCount =
        ({ g with g_vmMetrics :=
            { g.g_vmMetrics with
              instructionsExecuted := int_add g.g_vmMetrics.instructionsExecuted 1,
              executionTimeMs := duration_ms h (now - g.g_executionStartTime),
              memoryUsed := gc_bytes gcCount } },
          Except.ok ())) ∧
    ((loop_detection_hook h g now gcCount).2 = Except.error "Memory limit exceeded" →
      duration_ms h (now - g.g_executionStartTime) ≤ 5000 ∧
      gc_bytes gcCount > ROBLOX_VM_MAX_MEMORY) := by
  have hcount : (loop_detection_hook h g now gcCount).1.g_vmMetrics.instructionsExecuted =
      int_add g.g_vmMetrics.instructionsExecuted 1 := by
    simp only [loop_detection_hook, roblox_vm_check_timeout, roblox_vm_check_memory,
      ROBLOX_VM_TIMEOUT_MS]
    by_cases hto : duration_ms h (now - g.g_executionStartTime) > 5000
    · simp [hto]
    · by_cases hmem : gc_bytes gcCount > ROBLOX_VM_MAX_MEMORY
      · simp [hto, hmem]
      · simp [hto, hmem]
  refine ⟨hcount, ?_, ?_, ?_, ?_, ?_⟩
  · intro hr
    rw [hcount]
    exact int_add_one_exact _ hr.1 hr.2
  · intro hto
    simp [loop_detection_hook, roblox_vm_check_timeout, roblox_vm_check_memory,
      ROBLOX_VM_TIMEOUT_MS, hto]
  · intro hto hmem
    have hto2 : ¬ duration_ms h (now - g.g_executionStartTime) > 5000 := by omega
    simp [loop_detection_hook, roblox_vm_check_timeout, roblox_vm_check_memory,
      ROBLOX_VM_TIMEOUT_MS, hto2, hmem]
  · intro hto hmem
    have hto2 : ¬ duration_ms h (now - g.g_executionStartTime) > 5000 := by omega
    have hmem2 : ¬ gc_bytes gcCount > ROBLOX_VM_MAX_MEMORY := by omega
    simp [loop_detection_hook, roblox_vm_check_timeout, roblox_vm_check_memory,
      ROBLOX_VM_TIMEOUT_MS, hto2, hmem2]
  · intro herr
    by_cases hto : duration_ms h (now - g.g_executionStartTime) > 5000
    · simp [loop_detection_hook, roblox_vm_check_timeout, roblox_vm_check_memory,
        ROBLOX_VM_TIMEOUT_MS, hto] at herr
    · by_cases hmem : gc_bytes gcCount > ROBLOX_VM_MAX_MEMORY
      · exact ⟨by omega, hmem⟩
      · simp [loop_detection_hook, roblox_vm_check_timeout, roblox_vm_check_memory,
          ROBLOX_VM_TIMEOUT_MS, hto, hmem] at herr

/-- Witness of hook_precedence: 6000 ms elapsed and 200 MB in use at the same checkpoint; the
hook raises the timeout error, timedOut is set, memoryLimitExceeded is not, and the
counter went from 0 to 1. -/
theorem hook_precedence_witness :
    (INT_MIN ≤ sample_start.g_vmMetrics.instructionsExecuted ∧
      sample_start.g_vmMetrics.instructionsExecuted < INT_MAX) ∧
    duration_ms sample_host (6000000000 - sample_start.g_executionStartTime) > 5000 ∧
    gc_bytes 204800 > ROBLOX_VM_MAX_MEMORY ∧
    (loop_detection_hook sample_host sample_start 6000000000 204800).1.g_vmMetrics.instructionsExecuted =
      sample_start.g_vmMetrics.instructionsExecuted + 1 ∧
    (loop_detection_hook sample_host sample_start 6000000000 204800).2 =
      Except.error "Script execution timed out (possible infinite loop)" ∧
    (loop_detection_hook sample_host sample_start 6000000000 204800).1.g_vmMetrics.timedOut =
      true ∧
    (loop_detection_hook sample_host sample_start 6000000000 204800).1.g_vmMetrics.memoryLimitExceeded =
      false :=
  ⟨by decide, by decide, by decide,
    (hook_precedence sample_host sample_start 6000000000 204800 0).2.1 (by decide),
    congrArg (fun r => r.2)
      ((hook_precedence sample_host sample_start 6000000000 204800 0).2.2.1 (by decide)).1,
    congrArg (fun r => r.1.g_vmMetrics.timedOut)
      ((hook_precedence sample_host sample_start 6000000000 204800 0).2.2.1 (by decide)).1,
    congrArg (fun r => r.1.g_vmMetrics.memoryLimitExceeded)
      ((hook_precedence sample_host sample_start 6000000000 204800 0).2.2.1 (by decide)).1⟩

/-! ## The sandbox -/

/-- The state roblox_vm_create_sandbox leaves, when a function sits on top of the stack: one
new table, holding the three copied bindings, is the environment of that function;
stack, globals and hook are as before. -/
theorem create_sandbox_objects (L : LuaState) (f e0 : Nat) (rest : List LuaValue)
    (hstack : L.stack = LuaValue.ref f :: rest)
    (hfun : L.objects[f]? = some (LuaObject.closure e0)) :
    roblox_vm_create_sandbox L =
      { L with objects :=
          (L.objects ++ [LuaObject.table
            (Function.update (Function.update (Function.update (fun _ => LuaValue.nil)
              "math" (L.globals "math")) "string" (L.globals "string"))
              "table" (L.globals "table"))]).set f (LuaObject.closure L.objects.length) } := by
  have hf : f < L.objects.length := by
    rcases List.getElem?_eq_some.mp hfun with ⟨hlt, _⟩
    exact hlt
  simp [roblox_vm_create_sandbox, lua_newtable, lua_getglobal, lua_setfield, lua_setfenv,
    index2value, hstack]
  rw [List.getElem?_append_left hf, hfun]

/-- The fields of the sandbox table. -/
theorem create_sandbox_rawget (L : LuaState) (f e0 : Nat) (rest : List LuaValue)
    (hstack : L.stack = LuaValue.ref f :: rest)
    (hfun : L.objects[f]? = some (LuaObject.closure e0)) (name : String) :
    rawget (roblox_vm_create_sandbox L) L.objects.length name =
      (if name = "math" ∨ name = "string" ∨ name = "table" then L.globals name
       else LuaValue.nil) := by
  have hf : f < L.objects.length := by
    rcases List.getElem?_eq_some.mp hfun with ⟨hlt, _⟩
    exact hlt
  have hne : f ≠ L.objects.length := by omega
  rw [create_sandbox_objects L f e0 rest hstack hfun]
  simp only [rawget]
  rw [List.getElem?_set_ne hne]
  simp only [List.getElem?_concat_length, Function.update, eq_rec_constant, dite_eq_ite]
  by_cases h1 : name = "table"
  · simp [h1]
  · by_cases h2 : name = "string"
    · simp [h2]
    · by_cases h3 : name = "math"
      · simp [h3]
      · simp [h1, h2, h3]

/-- C8: let the loaded function (object f) be on top of the stack when
roblox_vm_create_sandbox runs. The table it builds is a new object (address a, the number
of objects before); its field for a name is the VM global of that name when the name is
"math", "string" or "table" and nil for every other name, so a name with a binding in the
table is one of these three; the table is the environment of f afterwards, the stack is
back to what it was with f on top, and the globals are untouched. Installing the hook
changes none of this, and this is the state roblox_vm_execute_script runs the function
in after a successful load. -/
theorem create_sandbox_allow_list (L : LuaState) (f e0 : Nat) (rest : List LuaValue)
    (hstack : L.stack = LuaValue.ref f :: rest)
    (hfun : L.objects[f]? = some (LuaObject.closure e0)) :
    L.objects[L.objects.length]? = none ∧
    (∀ name : String,
      rawget (roblox_vm_create_sandbox L) L.objects.length name =
        (if name = "math" ∨ name = "string" ∨ name = "table" then L.globals name
         else LuaValue.nil)) ∧
    (∀ name : String,
      rawget (roblox_vm_create_sandbox L) L.objects.length name ≠ LuaValue.nil →
        name = "math" ∨ name = "string" ∨ name = "table") ∧
    closure_env (roblox_vm_create_sandbox L) f = some L.objects.length ∧
    (roblox_vm_create_sandbox L).stack = LuaValue.ref f :: rest ∧
    (roblox_vm_create_sandbox L).globals = L.globals ∧
    (∀ (h : Host),
      (roblox_vm_setup_loop_detection h (roblox_vm_create_sandbox L)).objects =
        (roblox_vm_create_sandbox L).objects ∧
      (roblox_vm_setup_loop_detection h (roblox_vm_create_sandbox L)).stack =
        LuaValue.ref f :: rest) ∧
    (∀ (h : Host) (vm : VM) (g : Globals) (L0 : LuaState) (script : List Nat)
        (chunkname : String) (now0 now1 now2 gcCount : Int),
      vm.luaL_loadbuffer L0 script script.length chunkname = (h.LUA_OK, L) →
      roblox_vm_execute_script h vm g L0 script chunkname now0 now1 now2 gcCount =
        roblox_vm_pcall h vm (roblox_vm_init_metrics g now0)
          (roblox_vm_setup_loop_detection h (roblox_vm_create_sandbox L))
          0 h.LUA_MULTRET now1 now2 gcCount) := by
  have hf : f < L.objects.length := by
    rcases List.getElem?_eq_some.mp hfun with ⟨hlt, _⟩
    exact hlt
  have hget := create_sandbox_rawget L f e0 rest hstack hfun
  have hobj := create_sandbox_objects L f e0 rest hstack hfun
  refine ⟨?_, hget, ?_, ?_, ?_, ?_, ?_, ?_⟩
  · simp
  · intro name hne
    by_contra hnot
    rw [hget name, if_neg hnot] at hne
    exact hne rfl
  · have hf3 : f < L.objects.length + 1 := by omega
    rw [hobj]
    simp [closure_env, List.getElem?_set, hf3]
  · rw [hobj]
    exact hstack
  · rw [hobj]
  · intro h
    constructor
    · rfl
    · rw [hobj]
      exact hstack
  · intro h vm g L0 script chunkname now0 now1 now2 gcCount hload
    simp [roblox_vm_execute_script, hload]

/-- Witness of create_sandbox_allow_list: in the sample state the global os is bound to
object 4, the sandbox table (object 6) has no field os and has math bound to object 1,
and it is the environment of the loaded function (object 5). -/
theorem create_sandbox_allow_list_witness :
    sample_loaded.stack = LuaValue.ref 5 :: [] ∧
    sample_loaded.objects[5]? = some (LuaObject.closure 0) ∧
    sample_loaded.globals "os" = LuaValue.ref 4 ∧
    rawget (roblox_vm_create_sandbox sample_loaded) 6 "os" = LuaValue.nil ∧
    rawget (roblox_vm_create_sandbox sample_loaded) 6 "math" = LuaValue.ref 1 ∧
    closure_env (roblox_vm_create_sandbox sample_loaded) 5 = some 6 :=
  ⟨rfl, rfl, rfl,
    ((create_sandbox_allow_list sample_loaded 5 0 [] rfl rfl).2.1 "os").trans rfl,
    ((create_sandbox_allow_list sample_loaded 5 0 [] rfl rfl).2.1 "math").trans rfl,
    (create_sandbox_allow_list sample_loaded 5 0 [] rfl rfl).2.2.2.1⟩

end RobloxVM
